import Mathlib

/-
Verification development for the pantopoda HTTP helper library.

The Go sources are embedded shallowly:
  - http/status_code.go : StatusCode and its five classifier predicates.
  - request.go          : QueryParams (ToString, Empty), Request envelope,
                          Response envelope (Unmarshal, ToString).
  - helpers.go          : Validate and the ValidationError model.
  - client.go           : the client Request operation, with the wire
                          transport abstracted as an oracle function.
Go maps are embedded as association lists with pairwise-distinct keys
(iteration order of a Go map is unspecified; the list order stands for one
such iteration order). Machine integers are embedded as Int (status codes
never approach overflow). External collaborators (the validator engine, the
translation lookup, the transport) are parameters of the embedded
operations.
-/

-- ### Status codes (http/status_code.go) ###

/-- `type StatusCode int` -/
abbrev StatusCode := Int

/-- `func (s StatusCode) IsInformational() bool x return s >= 100 && s < 200` -/
def StatusCode.IsInformational (s : StatusCode) : Bool :=
  decide (s ≥ 100) && decide (s < 200)

/-- `func (s StatusCode) IsSuccess() bool x return s >= 200 && s < 300` -/
def StatusCode.IsSuccess (s : StatusCode) : Bool :=
  decide (s ≥ 200) && decide (s < 300)

/-- `func (s StatusCode) IsRedirection() bool x return s >= 300 && s < 400` -/
def StatusCode.IsRedirection (s : StatusCode) : Bool :=
  decide (s ≥ 300) && decide (s < 400)

/-- `func (s StatusCode) IsClientError() bool x return s >= 400 && s < 500` -/
def StatusCode.IsClientError (s : StatusCode) : Bool :=
  decide (s ≥ 400) && decide (s < 500)

/-- `func (s StatusCode) IsInternalError() bool x return s > 500` -/
def StatusCode.IsInternalError (s : StatusCode) : Bool :=
  decide (s > 500)

-- ### Query params (request.go) ###

/-- `type QueryParams map[string][]string`, as an association list. -/
abbrev QueryParams := List (String × List String)

/-- Rendering of a Go `[]string` by the fmt package verb used in
`fmt.Sprintf("%s=%s", key, value)`: elements joined by a space between
square brackets. -/
def goFmtSlice (l : List String) : String :=
  "[" ++ String.intercalate " " l ++ "]"

/-- The tokens one key contributes in the loop body of
`QueryParams.ToString`: `key[]=v` per value when there is more than one
value, otherwise a single token formatting the whole value slice. -/
def tokensFor (kv : String × List String) : List String :=
  if kv.2.length > 1 then kv.2.map (fun v => kv.1 ++ "[]=" ++ v)
  else [kv.1 ++ "=" ++ goFmtSlice kv.2]

/-- `func (q QueryParams) ToString() string`: build `outSlice` by the
per-key loop and join with `&` (`strings.Join(outSlice, "&")`). -/
def QueryParams.ToString (q : QueryParams) : String :=
  String.intercalate "&" (q.foldl (fun out kv => out ++ tokensFor kv) [])

/-- `func (q QueryParams) Empty() bool x return len(q) == 0` -/
def QueryParams.Empty (q : QueryParams) : Bool :=
  q.length == 0

-- ### Validation model (interfaces.go, helpers.go) ###

/-- `type ErrorType string` -/
abbrev ErrorType := String

/-- `const BadRequest ErrorType = "bad_request"` -/
def BadRequest : ErrorType := "bad_request"

/-- `const RuleViolation ErrorType = "validation_failed"` -/
def RuleViolation : ErrorType := "validation_failed"

/-- `shark.ErrorBag` (external collaborator): per the spec an ordered
mapping from normalized field identifier to message, append-only while
under construction; embedded as an association list. -/
abbrev ErrorBag := List (String × String)

/-- `errorBag.Append(key, message)` appends one keyed entry. -/
def ErrorBag.Append (bag : ErrorBag) (key message : String) : ErrorBag :=
  bag ++ [(key, message)]

/-- `type ValidationError struct` with its ErrorBag and ErrorType fields.
The Go zero value has an empty bag and the empty-string type. -/
structure ValidationError where
  ErrorBag : ErrorBag
  ErrorType : ErrorType
deriving DecidableEq

/-- One entry of `validator.ValidationErrors`: the struct field that
violated a rule and the violated validation tag. -/
structure FieldError where
  StructField : String
  Tag : String
deriving DecidableEq

/-- Outcome of `validate.Struct(r)` (external rule engine,
gopkg.in/go-playground/validator.v9): `invalid` stands for a non-nil error
of type `*validator.InvalidValidationError` (the object cannot be
evaluated at all), `violations` for a non-nil `validator.ValidationErrors`
listing the failed field rules in engine order, `ok` for a nil error. -/
inductive ValidatorResult where
  | invalid : ValidatorResult
  | violations (errs : List FieldError) : ValidatorResult
  | ok : ValidatorResult

/-- `nautilus.ToSnake` (external dependency Kamva/nautilus): normalized
snake_case form of a field name; per the spec, field `UserName` yields
`user_name`. -/
def toSnake (s : String) : String :=
  s.toList.foldl
    (fun acc c =>
      if c.isUpper && !acc.isEmpty then acc ++ "_" ++ c.toLower.toString
      else acc ++ c.toLower.toString) ""

/-- `func Validate(r RequestData) ValidationError` (helpers.go, and the
identical `BaseRequest.Validate` in http/request.go). The rule engine
outcome is the `res` parameter; `orca.GetTranslationKey` (external
translation lookup) is the `translate` parameter, applied to the struct
field and the violated tag as in the source. -/
def Validate (translate : String → String → String) (res : ValidatorResult) :
    ValidationError :=
  match res with
  | ValidatorResult.ok => { ErrorBag := [], ErrorType := "" }
  | ValidatorResult.invalid => { ErrorBag := [], ErrorType := BadRequest }
  | ValidatorResult.violations errs =>
      { ErrorBag := errs.foldl
          (fun bag e =>
            ErrorBag.Append bag (toSnake e.StructField)
              (translate e.StructField e.Tag)) []
        ErrorType := RuleViolation }

-- ### JSON values (model of encoding/json) ###

/-- JSON values, the model of what `encoding/json` decodes; numbers are
modelled as integers (no claim depends on fractional numbers). -/
inductive Json where
  | null : Json
  | bool (b : Bool) : Json
  | num (n : Int) : Json
  | str (s : String) : Json
  | arr (xs : List Json) : Json
  | obj (fields : List (String × Json)) : Json

/-- Skip JSON whitespace. -/
def skipWs : List Char → List Char
  | [] => []
  | c :: cs => if c == ' ' || c == '\n' || c == '\t' || c == '\r' then skipWs cs else c :: cs

/-- Read the characters of a string literal up to the closing quote
(escape sequences are not modelled; no claim depends on them). -/
def parseStrChars : List Char → Option (String × List Char)
  | [] => none
  | c :: cs =>
    if c == '"' then some ("", cs)
    else
      match parseStrChars cs with
      | some (s, rest) => some (c.toString ++ s, rest)
      | none => none

/-- Decimal digits to a natural number. -/
def digitsToNat (ds : List Char) : Nat :=
  ds.foldl (fun n c => 10 * n + (c.toNat - 48)) 0

/-- Parse an unsigned integer literal. -/
def parseNumTail (cs : List Char) : Option (Int × List Char) :=
  let ds := cs.takeWhile Char.isDigit
  let rest := cs.dropWhile Char.isDigit
  if ds.isEmpty then none else some ((digitsToNat ds : Int), rest)

/-- Parse an optionally negated integer literal. -/
def parseNum : List Char → Option (Int × List Char)
  | '-' :: cs => (parseNumTail cs).map (fun p => (-p.1, p.2))
  | cs => parseNumTail cs

/-- Match a fixed keyword tail and return the remaining characters. -/
def matchChars : List Char → List Char → Option (List Char)
  | [], rest => some rest
  | p :: ps, c :: cs => if p == c then matchChars ps cs else none
  | _ :: _, [] => none

mutual

/-- Parse one JSON value (fueled recursive-descent). -/
def parseVal : Nat → List Char → Option (Json × List Char)
  | 0, _ => none
  | fuel + 1, cs =>
    match skipWs cs with
    | [] => none
    | c :: rest =>
      if c == '"' then
        match parseStrChars rest with
        | some (s, r2) => some (Json.str s, r2)
        | none => none
      else if c == '[' then
        match skipWs rest with
        | ']' :: r2 => some (Json.arr [], r2)
        | r2 =>
          match parseItems fuel r2 with
          | some (xs, r3) => some (Json.arr xs, r3)
          | none => none
      else if c == '\x7b' then
        match skipWs rest with
        | '\x7d' :: r2 => some (Json.obj [], r2)
        | r2 =>
          match parseFields fuel r2 with
          | some (fs, r3) => some (Json.obj fs, r3)
          | none => none
      else if c == 't' then
        match matchChars ['r', 'u', 'e'] rest with
        | some r2 => some (Json.bool true, r2)
        | none => none
      else if c == 'f' then
        match matchChars ['a', 'l', 's', 'e'] rest with
        | some r2 => some (Json.bool false, r2)
        | none => none
      else if c == 'n' then
        match matchChars ['u', 'l', 'l'] rest with
        | some r2 => some (Json.null, r2)
        | none => none
      else
        match parseNum (c :: rest) with
        | some (n, r2) => some (Json.num n, r2)
        | none => none

/-- Parse the comma-separated items of a non-empty JSON array, consuming
the closing bracket. -/
def parseItems : Nat → List Char → Option (List Json × List Char)
  | 0, _ => none
  | fuel + 1, cs =>
    match parseVal fuel cs with
    | none => none
    | some (j, rest) =>
      match skipWs rest with
      | ',' :: r2 =>
        match parseItems fuel r2 with
        | some (xs, r3) => some (j :: xs, r3)
        | none => none
      | ']' :: r2 => some ([j], r2)
      | _ => none

/-- Parse the comma-separated fields of a non-empty JSON object, consuming
the closing brace. -/
def parseFields : Nat → List Char → Option (List (String × Json) × List Char)
  | 0, _ => none
  | fuel + 1, cs =>
    match skipWs cs with
    | '"' :: rest =>
      match parseStrChars rest with
      | some (k, r2) =>
        match skipWs r2 with
        | ':' :: r3 =>
          match parseVal fuel r3 with
          | some (v, r4) =>
            match skipWs r4 with
            | ',' :: r5 =>
              match parseFields fuel r5 with
              | some (fs, r6) => some ((k, v) :: fs, r6)
              | none => none
            | '\x7d' :: r5 => some ([(k, v)], r5)
            | _ => none
          | none => none
        | _ => none
      | none => none
    | _ => none

end

/-- Parse a whole JSON document (the parsing step of `json.Unmarshal`);
fails if anything but whitespace follows the value. -/
def Json.parse (s : String) : Option Json :=
  match parseVal (s.length + 1) s.toList with
  | some (j, rest) => if (skipWs rest).isEmpty then some j else none
  | none => none

-- ### Request and Response envelopes (request.go) ###

/-- `type RequestBody interface x ToJSON() []byte x`: a payload is
anything exposing its JSON serialization. -/
structure RequestBody where
  ToJSON : String

/-- `type Request struct` with Payload, Query and Headers; a nil payload
interface value is `none`. -/
structure Request where
  Payload : Option RequestBody
  Query : QueryParams
  Headers : List (String × String)

/-- `func (r *Request) HasBody() bool x return r.Payload != nil` -/
def Request.HasBody (r : Request) : Bool :=
  r.Payload.isSome

/-- `type Response struct` holding the raw body bytes read fully into
memory, the classified status code, and the response headers. -/
structure Response where
  json : String
  StatusCode : StatusCode
  Headers : List (String × String)

/-- `func (r Response) ToString() string x return string(r.json)` -/
def Response.ToString (r : Response) : String :=
  r.json

/-- `func (r Response) Unmarshal(v interface) error`: parse the stored
bytes and convert them into the caller-supplied target shape. The state of
the envelope is passed through explicitly: `json.Unmarshal` only reads
`r.json` (the documented contract of encoding/json), so the envelope
after the call is the envelope before it. -/
def Response.Unmarshal {α : Type} (r : Response) (shape : Json → Option α) :
    Option α × Response :=
  ((Json.parse r.json).bind shape, r)

-- ### Client (client.go) ###

/-- The wire-level request handed to the transport: method, URL with any
query string, serialized body, and the applied headers. -/
structure SentRequest where
  Method : String
  URL : String
  Body : String
  Headers : List (String × String)

/-- A completed wire exchange: status line, numeric status code, response
headers and the full response body as read by `ioutil.ReadAll`. -/
structure WireResponse where
  Status : String
  StatusCode : StatusCode
  Headers : List (String × String)
  Body : String

/-- Outcome of `http.NewRequest` plus `client.Do` (the net/http
collaborator): either a transport-level failure or a completed
exchange. -/
inductive TransportResult where
  | failure (err : String) : TransportResult
  | success (w : WireResponse) : TransportResult

/-- `func newResponse(res *http.Response, body []byte) Response` -/
def newResponse (w : WireResponse) : Response :=
  { json := w.Body, StatusCode := w.StatusCode, Headers := w.Headers }

/-- The error returned by the client Request operation: a transport error,
or the dedicated wire-failure error carrying the status line and the raw
body of a completed exchange with status code at least 300. -/
inductive ClientError where
  | transport (err : String) : ClientError
  | wireFailure (status : String) (body : String) : ClientError

/-- `req.Header.Set(key, value)` on the model header list: replace the
value under an existing key, else append the pair. Per the spec the name
and value are applied verbatim with no case normalization. -/
def headerSet (hs : List (String × String)) (k v : String) :
    List (String × String) :=
  if hs.any (fun p => p.1 == k) then
    hs.map (fun p => if p.1 == k then (k, v) else p)
  else hs ++ [(k, v)]

/-- The header loop of client.go: `for key, value := range request.Headers
x req.Header.Set(key, value) x`, starting from the fresh request's empty
header set. -/
def applyHeaders (reqHeaders : List (String × String)) :
    List (String × String) :=
  reqHeaders.foldl (fun acc kv => headerSet acc kv.1 kv.2) []

/-- Modelled from the spec: the current `Pantopoda.Request` in client.go
(the revision that calls `newResponse`, checks `HasBody`, and implements
steps 1-3 of spec section 4.4) is not among the provided sources — the
sources hold only its declarations (`newResponse`, `HasBody`, the
`Response` struct) and an older client.go revision. The outbound request
it constructs: the body is the payload's ToJSON, or the literal two-byte
open-brace close-brace object when no payload was supplied; the URL is the
endpoint with a question mark and the query string appended exactly when
QueryParams is non-empty; the headers are the caller's headers applied via
`req.Header.Set`. -/
def builtRequest (method endpoint : String) (req : Request) : SentRequest :=
  { Method := method
    URL := if QueryParams.Empty req.Query = true then endpoint
           else endpoint ++ "?" ++ QueryParams.ToString req.Query
    Body := match req.Payload with
            | some p => p.ToJSON
            | none => "\x7b\x7d"
    Headers := applyHeaders req.Headers }

/-- Modelled from the spec: the current `Pantopoda.Request` in client.go
(see `builtRequest`; steps 4-6 of spec section 4.4). The built request is
handed to the transport; a transport-level failure returns no envelope and
the transport error; a completed exchange always returns the populated
envelope, together with the dedicated wire-failure error (status line and
raw body) exactly when the status code is at least 300. -/
def clientRequest (transport : SentRequest → TransportResult)
    (method endpoint : String) (req : Request) :
    Option Response × Option ClientError :=
  match transport (builtRequest method endpoint req) with
  | TransportResult.failure e => (none, some (ClientError.transport e))
  | TransportResult.success w =>
      if w.StatusCode ≥ 300 then
        (some (newResponse w), some (ClientError.wireFailure w.Status w.Body))
      else
        (some (newResponse w), none)

-- ### Theorems ###

/-- Folding list-append over a list starting from any accumulator is the
accumulator followed by the joined mapped pieces. -/
theorem foldl_append_pieces {α β : Type} (f : α → List β) :
    ∀ (l : List α) (acc : List β),
      l.foldl (fun out kv => out ++ f kv) acc = acc ++ (l.map f).flatten := by
  intro l
  induction l with
  | nil => intro acc; simp
  | cons x xs ih =>
      intro acc
      rw [List.foldl_cons, ih]
      simp

/-- The error-bag fold in `Validate` appends exactly one entry per field
error, in order. -/
theorem validate_bag_eq (translate : String → String → String) :
    ∀ (errs : List FieldError) (acc : ErrorBag),
      errs.foldl
          (fun bag e =>
            ErrorBag.Append bag (toSnake e.StructField)
              (translate e.StructField e.Tag)) acc
        = acc ++ errs.map
            (fun e => (toSnake e.StructField, translate e.StructField e.Tag)) := by
  intro errs
  induction errs with
  | nil => intro acc; simp
  | cons e rest ih =>
      intro acc
      rw [List.foldl_cons, ih]
      simp [ErrorBag.Append]

/-- Claim C1: the five classifier predicates respect the status bands:
IsInformational iff 100 ≤ v < 200, IsSuccess iff 200 ≤ v < 300,
IsRedirection iff 300 ≤ v < 400, IsClientError iff 400 ≤ v < 500, and
IsInternalError iff v > 500 strictly, so IsInternalError 500 is false; for
100 ≤ v < 500 exactly one of the first four holds. -/
theorem statusCode_band_classification (v : Int) :
    (StatusCode.IsInformational v = true ↔ 100 ≤ v ∧ v < 200) ∧
    (StatusCode.IsSuccess v = true ↔ 200 ≤ v ∧ v < 300) ∧
    (StatusCode.IsRedirection v = true ↔ 300 ≤ v ∧ v < 400) ∧
    (StatusCode.IsClientError v = true ↔ 400 ≤ v ∧ v < 500) ∧
    (StatusCode.IsInternalError v = true ↔ 500 < v) ∧
    StatusCode.IsInternalError 500 = false ∧
    (100 ≤ v → v < 500 →
      ((StatusCode.IsInformational v = true ∨ StatusCode.IsSuccess v = true ∨
        StatusCode.IsRedirection v = true ∨ StatusCode.IsClientError v = true) ∧
       ¬(StatusCode.IsInformational v = true ∧ StatusCode.IsSuccess v = true) ∧
       ¬(StatusCode.IsInformational v = true ∧ StatusCode.IsRedirection v = true) ∧
       ¬(StatusCode.IsInformational v = true ∧ StatusCode.IsClientError v = true) ∧
       ¬(StatusCode.IsSuccess v = true ∧ StatusCode.IsRedirection v = true) ∧
       ¬(StatusCode.IsSuccess v = true ∧ StatusCode.IsClientError v = true) ∧
       ¬(StatusCode.IsRedirection v = true ∧ StatusCode.IsClientError v = true))) := by
  have hI : StatusCode.IsInformational v = true ↔ 100 ≤ v ∧ v < 200 := by
    simp [StatusCode.IsInformational]
  have hS : StatusCode.IsSuccess v = true ↔ 200 ≤ v ∧ v < 300 := by
    simp [StatusCode.IsSuccess]
  have hR : StatusCode.IsRedirection v = true ↔ 300 ≤ v ∧ v < 400 := by
    simp [StatusCode.IsRedirection]
  have hC : StatusCode.IsClientError v = true ↔ 400 ≤ v ∧ v < 500 := by
    simp [StatusCode.IsClientError]
  have hX : StatusCode.IsInternalError v = true ↔ 500 < v := by
    simp [StatusCode.IsInternalError]
  refine ⟨hI, hS, hR, hC, hX, by decide, ?_⟩
  intro h1 h2
  simp only [hI, hS, hR, hC]
  omega

/-- Witness for C1 at the concrete status code 404. -/
theorem statusCode_band_classification_witness :
    (StatusCode.IsInformational 404 = true ∨ StatusCode.IsSuccess 404 = true ∨
     StatusCode.IsRedirection 404 = true ∨ StatusCode.IsClientError 404 = true) ∧
    ¬(StatusCode.IsRedirection 404 = true ∧ StatusCode.IsClientError 404 = true) :=
  ⟨((statusCode_band_classification 404).2.2.2.2.2.2 (by decide) (by decide)).1,
   ((statusCode_band_classification 404).2.2.2.2.2.2 (by decide) (by decide)).2.2.2.2.2.2⟩

/-- Claim C4, evaluated at the failing input: a key with exactly one value
is rendered by formatting the whole value slice with the fmt `%s` verb, so
the query string for a single-valued key `a` with value `1` is `a=[1]`,
not `a=1` as the claim states. -/
theorem queryParams_single_value_failing_input :
    QueryParams.ToString [("a", ["1"])] = "a=[1]" := by
  decide

/-- Claim C5: each key with more than one value contributes one
`key[]=value` token per value in the per-key order, all emitted tokens are
joined with `&`, the empty mapping serializes to the empty string, and
`Empty` is true iff the mapping has zero keys. -/
theorem queryParams_tokens_join_empty (q : QueryParams) :
    (∀ k vs, (k, vs) ∈ q → 1 < vs.length →
      tokensFor (k, vs) = vs.map (fun v => k ++ "[]=" ++ v)) ∧
    QueryParams.ToString q = String.intercalate "&" (List.flatten (q.map tokensFor)) ∧
    QueryParams.ToString [] = "" ∧
    (QueryParams.Empty q = true ↔ q = []) := by
  refine ⟨?_, ?_, rfl, ?_⟩
  · intro k vs _ h2
    simp [tokensFor, h2]
  · show String.intercalate "&" _ = _
    rw [foldl_append_pieces tokensFor q []]
    simp
  · simp [QueryParams.Empty, List.length_eq_zero]

/-- Witness for C5 at the concrete mapping of key `a` to values 1 and 2. -/
theorem queryParams_tokens_join_empty_witness :
    tokensFor ("a", ["1", "2"]) = ["a[]=1", "a[]=2"] := by
  rw [(queryParams_tokens_join_empty [("a", ["1", "2"])]).1 "a" ["1", "2"]
    (by decide) (by decide)]
  decide

/-- Claim C6: Validate yields exactly one of three outcomes: BadRequest
with no bag when the object cannot be evaluated; RuleViolation with one
bag entry per rule failure keyed by the snake_case field name (UserName
yields user_name) and a translated message; and the zero-value
ValidationError when no rule fails. -/
theorem validate_outcomes (translate : String → String → String)
    (res : ValidatorResult) :
    (res = ValidatorResult.invalid →
      Validate translate res = { ErrorBag := [], ErrorType := BadRequest }) ∧
    (∀ errs, res = ValidatorResult.violations errs →
      (Validate translate res).ErrorType = RuleViolation ∧
      (Validate translate res).ErrorBag
        = errs.map (fun e => (toSnake e.StructField, translate e.StructField e.Tag))) ∧
    (res = ValidatorResult.ok →
      Validate translate res = { ErrorBag := [], ErrorType := "" }) ∧
    toSnake "UserName" = "user_name" := by
  refine ⟨?_, ?_, ?_, by decide⟩
  · intro h; subst h; rfl
  · intro errs h; subst h
    refine ⟨rfl, ?_⟩
    have h2 := validate_bag_eq translate errs []
    simpa using h2
  · intro h; subst h; rfl

/-- Witness for C6: one violated rule on field UserName yields
RuleViolation with the bag keyed by user_name. -/
theorem validate_outcomes_witness :
    (Validate (fun f t => f ++ ":" ++ t)
        (ValidatorResult.violations
          [{ StructField := "UserName", Tag := "required" }])).ErrorType
      = RuleViolation ∧
    (Validate (fun f t => f ++ ":" ++ t)
        (ValidatorResult.violations
          [{ StructField := "UserName", Tag := "required" }])).ErrorBag
      = [("user_name", "UserName:required")] := by
  have h := (validate_outcomes (fun f t => f ++ ":" ++ t)
      (ValidatorResult.violations
        [{ StructField := "UserName", Tag := "required" }])).2.1
      [{ StructField := "UserName", Tag := "required" }] rfl
  refine ⟨h.1, ?_⟩
  rw [h.2]
  decide

/-- Claim C10: every ValidationError returned by Validate has an ErrorType
among the unset zero value, bad_request and validation_failed, and its
ErrorBag is populated only in the validation_failed case; the BadRequest
outcome and the success outcome carry an empty bag. -/
theorem validationError_type_bag_invariant (translate : String → String → String)
    (res : ValidatorResult) :
    ((Validate translate res).ErrorType = "" ∨
     (Validate translate res).ErrorType = BadRequest ∨
     (Validate translate res).ErrorType = RuleViolation) ∧
    ((Validate translate res).ErrorBag ≠ [] →
      (Validate translate res).ErrorType = RuleViolation) ∧
    ((Validate translate res).ErrorType = BadRequest →
      (Validate translate res).ErrorBag = []) ∧
    ((Validate translate res).ErrorType = "" →
      (Validate translate res).ErrorBag = []) := by
  cases res with
  | ok =>
      exact ⟨Or.inl rfl, fun h => absurd rfl h, fun _ => rfl, fun _ => rfl⟩
  | invalid =>
      refine ⟨Or.inr (Or.inl rfl), fun h => absurd rfl h, fun _ => rfl, fun h => ?_⟩
      have h2 : BadRequest = ("" : ErrorType) := h
      exact absurd h2 (by decide)
  | violations errs =>
      refine ⟨Or.inr (Or.inr rfl), fun _ => rfl, fun h => ?_, fun h => ?_⟩
      · have h2 : RuleViolation = BadRequest := h
        exact absurd h2 (by decide)
      · have h2 : RuleViolation = ("" : ErrorType) := h
        exact absurd h2 (by decide)

/-- Witness for C10: a populated bag forces the validation_failed type. -/
theorem validationError_type_bag_invariant_witness :
    (Validate (fun _ _ => "m")
        (ValidatorResult.violations [{ StructField := "A", Tag := "r" }])).ErrorType
      = RuleViolation :=
  (validationError_type_bag_invariant (fun _ _ => "m")
    (ValidatorResult.violations [{ StructField := "A", Tag := "r" }])).2.1
    (by decide)

/-- `headerSet` on a header list whose keys all differ from the key being
set appends the new pair. -/
theorem headerSet_fresh (acc : List (String × String)) (k v : String)
    (h : ∀ p ∈ acc, p.1 ≠ k) : headerSet acc k v = acc ++ [(k, v)] := by
  have hc : acc.any (fun p => p.1 == k) = false := by
    rw [List.any_eq_false]
    intro p hp
    simpa using h p hp
  simp [headerSet, hc]

/-- Folding `headerSet` over headers with pairwise-distinct keys, starting
from a header set whose keys are disjoint from them, appends them all in
order. -/
theorem applyHeaders_foldl (hs : List (String × String)) :
    ∀ acc : List (String × String),
      (∀ p ∈ acc, ∀ q ∈ hs, p.1 ≠ q.1) → (hs.map Prod.fst).Nodup →
      hs.foldl (fun acc kv => headerSet acc kv.1 kv.2) acc = acc ++ hs := by
  induction hs with
  | nil => intro acc _ _; simp
  | cons x xs ih =>
      intro acc hfresh hnodup
      have hx : x.1 ∉ xs.map Prod.fst :=
        (List.nodup_cons.mp (by simpa using hnodup)).1
      rw [List.foldl_cons,
        headerSet_fresh acc x.1 x.2 (fun p hp => hfresh p hp x (by simp)),
        ih (acc ++ [x]) ?fresh ((List.nodup_cons.mp (by simpa using hnodup)).2)]
      · simp
      case fresh =>
        intro p hp q hq
        rcases List.mem_append.mp hp with h1 | h1
        · exact hfresh p h1 q (List.mem_cons_of_mem _ hq)
        · have hpx : p = x := by simpa using h1
          subst hpx
          intro he
          exact hx (he ▸ List.mem_map_of_mem Prod.fst hq)

/-- Claim C7: every caller-supplied header pair is applied to the outbound
request verbatim and no header the caller did not set is applied: for
headers with pairwise-distinct names (a Go map cannot hold duplicates),
the wire request's header list is exactly the caller's list. -/
theorem headers_applied_verbatim (method endpoint : String) (req : Request)
    (h : (req.Headers.map Prod.fst).Nodup) :
    (builtRequest method endpoint req).Headers = req.Headers := by
  show applyHeaders req.Headers = req.Headers
  unfold applyHeaders
  simpa using applyHeaders_foldl req.Headers [] (by simp) h

/-- Witness for C7 at two concrete headers. -/
theorem headers_applied_verbatim_witness :
    (builtRequest "GET" "http://x"
        { Payload := none, Query := [],
          Headers := [("X-Token", "t"), ("Accept", "application/json")] }).Headers
      = [("X-Token", "t"), ("Accept", "application/json")] :=
  headers_applied_verbatim "GET" "http://x"
    { Payload := none, Query := [],
      Headers := [("X-Token", "t"), ("Accept", "application/json")] }
    (by decide)

/-- Claim C8: a transport-level failure of request construction or of the
wire send returns the transport error and no Response envelope; the
endpoint sent is unchanged when QueryParams is empty and is the endpoint
with a question mark and the encoded query appended when it is
non-empty. -/
theorem transport_failure_and_query_endpoint
    (transport : SentRequest → TransportResult)
    (method endpoint : String) (req : Request) (e : String) :
    (transport (builtRequest method endpoint req) = TransportResult.failure e →
      clientRequest transport method endpoint req
        = (none, some (ClientError.transport e))) ∧
    (req.Query = [] → (builtRequest method endpoint req).URL = endpoint) ∧
    (req.Query ≠ [] → (builtRequest method endpoint req).URL
        = endpoint ++ "?" ++ QueryParams.ToString req.Query) := by
  refine ⟨?_, ?_, ?_⟩
  · intro h
    unfold clientRequest
    rw [h]
  · intro h
    show (if QueryParams.Empty req.Query = true then endpoint
          else endpoint ++ "?" ++ QueryParams.ToString req.Query) = endpoint
    rw [h]
    simp [QueryParams.Empty]
  · intro h
    have hf : QueryParams.Empty req.Query = false := by
      simp only [QueryParams.Empty, beq_eq_false_iff_ne, ne_eq,
        List.length_eq_zero]
      exact h
    show (if QueryParams.Empty req.Query = true then endpoint
          else endpoint ++ "?" ++ QueryParams.ToString req.Query) = _
    rw [hf]
    simp

/-- Witness for C8: a refused connection with a non-empty query. -/
theorem transport_failure_and_query_endpoint_witness :
    clientRequest (fun _ => TransportResult.failure "connection refused")
        "GET" "http://x"
        { Payload := none, Query := [("a", ["1", "2"])], Headers := [] }
      = (none, some (ClientError.transport "connection refused")) ∧
    (builtRequest "GET" "http://x"
        { Payload := none, Query := [("a", ["1", "2"])], Headers := [] }).URL
      = "http://x" ++ "?" ++ QueryParams.ToString [("a", ["1", "2"])] :=
  ⟨(transport_failure_and_query_endpoint
      (fun _ => TransportResult.failure "connection refused") "GET" "http://x"
      { Payload := none, Query := [("a", ["1", "2"])], Headers := [] }
      "connection refused").1 rfl,
   (transport_failure_and_query_endpoint
      (fun _ => TransportResult.failure "connection refused") "GET" "http://x"
      { Payload := none, Query := [("a", ["1", "2"])], Headers := [] }
      "connection refused").2.2 (by decide)⟩

/-- Claim C2: a completed wire exchange whose status code is at least 300
returns the populated Response envelope, whose stored body is the raw wire
body, together with a non-nil wire-failure error carrying the status line
and the raw body — the error comes alongside the envelope, not instead of
it. -/
theorem wire_failure_error_alongside_envelope
    (transport : SentRequest → TransportResult)
    (method endpoint : String) (req : Request) (w : WireResponse)
    (hw : transport (builtRequest method endpoint req) = TransportResult.success w)
    (hs : w.StatusCode ≥ 300) :
    clientRequest transport method endpoint req
      = (some (newResponse w), some (ClientError.wireFailure w.Status w.Body)) ∧
    (newResponse w).json = w.Body := by
  constructor
  · unfold clientRequest
    rw [hw]
    show (if w.StatusCode ≥ 300 then
            (some (newResponse w), some (ClientError.wireFailure w.Status w.Body))
          else (some (newResponse w), none)) = _
    rw [if_pos hs]
  · rfl

/-- Witness for C2 at a concrete 404 exchange. -/
theorem wire_failure_error_alongside_envelope_witness :
    clientRequest
        (fun _ => TransportResult.success
          { Status := "404 Not Found", StatusCode := 404, Headers := [],
            Body := "\x7b\"message\":\"missing\"\x7d" })
        "GET" "http://x" { Payload := none, Query := [], Headers := [] }
      = (some (newResponse
            { Status := "404 Not Found", StatusCode := 404, Headers := [],
              Body := "\x7b\"message\":\"missing\"\x7d" }),
         some (ClientError.wireFailure "404 Not Found"
            "\x7b\"message\":\"missing\"\x7d")) :=
  (wire_failure_error_alongside_envelope
    (fun _ => TransportResult.success
      { Status := "404 Not Found", StatusCode := 404, Headers := [],
        Body := "\x7b\"message\":\"missing\"\x7d" })
    "GET" "http://x" { Payload := none, Query := [], Headers := [] }
    { Status := "404 Not Found", StatusCode := 404, Headers := [],
      Body := "\x7b\"message\":\"missing\"\x7d" }
    rfl (by decide)).1

/-- Claim C3: when no payload is supplied, the outbound body is exactly
the two-byte JSON object of an open brace and a close brace — not the
empty byte sequence — and the call proceeds: any completed exchange still
yields the populated envelope. -/
theorem missing_payload_serializes_empty_object
    (transport : SentRequest → TransportResult)
    (method endpoint : String) (req : Request)
    (hp : req.Payload = none) :
    (builtRequest method endpoint req).Body = "\x7b\x7d" ∧
    ((builtRequest method endpoint req).Body).length = 2 ∧
    (builtRequest method endpoint req).Body ≠ "" ∧
    (∀ w, transport (builtRequest method endpoint req) = TransportResult.success w →
      (clientRequest transport method endpoint req).1 = some (newResponse w)) := by
  have hb : (builtRequest method endpoint req).Body = "\x7b\x7d" := by
    show (match req.Payload with
          | some p => p.ToJSON
          | none => "\x7b\x7d") = "\x7b\x7d"
    rw [hp]
  refine ⟨hb, by rw [hb]; rfl, by rw [hb]; decide, ?_⟩
  intro w hw
  unfold clientRequest
  rw [hw]
  show (if w.StatusCode ≥ 300 then
          (some (newResponse w), some (ClientError.wireFailure w.Status w.Body))
        else (some (newResponse w), none)).1 = some (newResponse w)
  by_cases h3 : w.StatusCode ≥ 300
  · rw [if_pos h3]
  · rw [if_neg h3]

/-- Witness for C3 at a concrete payload-less request. -/
theorem missing_payload_serializes_empty_object_witness :
    (builtRequest "POST" "http://x"
        { Payload := none, Query := [], Headers := [] }).Body = "\x7b\x7d" ∧
    (clientRequest
        (fun _ => TransportResult.success
          { Status := "200 OK", StatusCode := 200, Headers := [], Body := "ok" })
        "POST" "http://x" { Payload := none, Query := [], Headers := [] }).1
      = some (newResponse
          { Status := "200 OK", StatusCode := 200, Headers := [], Body := "ok" }) :=
  ⟨(missing_payload_serializes_empty_object
      (fun _ => TransportResult.success
        { Status := "200 OK", StatusCode := 200, Headers := [], Body := "ok" })
      "POST" "http://x" { Payload := none, Query := [], Headers := [] } rfl).1,
   (missing_payload_serializes_empty_object
      (fun _ => TransportResult.success
        { Status := "200 OK", StatusCode := 200, Headers := [], Body := "ok" })
      "POST" "http://x" { Payload := none, Query := [], Headers := [] } rfl).2.2.2
      { Status := "200 OK", StatusCode := 200, Headers := [], Body := "ok" } rfl⟩

/-- Claim C9: decoding a Response envelope is a pure, repeatable read: a
decode leaves the envelope (and so the stored bytes) unchanged, a second
decode into a different target shape returns exactly what it would have
returned alone, and ToString afterwards returns the same raw body text as
before. -/
theorem unmarshal_repeatable {α β : Type} (r : Response)
    (shapeA : Json → Option α) (shapeB : Json → Option β) :
    (r.Unmarshal shapeA).2 = r ∧
    ((r.Unmarshal shapeA).2.Unmarshal shapeB).1 = (r.Unmarshal shapeB).1 ∧
    ((r.Unmarshal shapeA).2.Unmarshal shapeB).2 = r ∧
    (((r.Unmarshal shapeA).2.Unmarshal shapeB).2).ToString = r.ToString :=
  ⟨rfl, rfl, rfl, rfl⟩
